import Mathlib

/-!
Verification of the `health-node` proxy supervisor (v2rayhub/proxy-node).

This file shallowly embeds the pure, byte-level parts of the repository:

* `internal/proxy/socks5.go` — the SOCKS5 client handshake (`DialSocks5`,
  `readFull`), together with models of the Go standard-library routines it
  calls (`net.SplitHostPort`, `strconv.Atoi`, `net.ParseIP`, `IP.To4`,
  `IP.To16`, `strings.TrimSpace`).
* `cmd/health-node/main.go` — the speed harness body-reading logic
  (`speedHTTP` over `io.CopyN` / `io.Copy`) and the metered relay's
  per-connection traffic accounting (`relayConn` over `atomic.Uint64`).
* `internal/core/core.go` and the extended `Runner.Start` in
  `cmd/health-node` — configuration-file synthesis and `ReadLogTail`.

Network connections are modelled as a list of byte chunks (`NetStream`):
each chunk is the batch of bytes a single `conn.Read` into a large buffer
can return (a TCP segment boundary).  Bytes are `Nat` values `< 256`.
-/

deriving instance DecidableEq for Except

namespace ProxyNode

/-- A byte stream delivered by a TCP connection, as a list of chunks.  One
`Read` call returns bytes from the first non-empty chunk only. -/
abbrev NetStream := List (List Nat)

/-- Total number of bytes remaining in a stream. -/
def streamBytes (s : NetStream) : Nat := (s.map List.length).sum

/-- ASCII bytes of a string (all concrete addresses in this file are ASCII). -/
def str2bytes (s : String) : List Nat := s.toList.map Char.toNat

/-! ## Go standard library models: `strings.TrimSpace` -/

/-- `unicode.IsSpace` on a code point (the set Go's `TrimSpace` trims). -/
def isUnicodeSpace (r : Nat) : Bool :=
  (9 ≤ r && r ≤ 13) || r == 32 || r == 0x85 || r == 0xA0 || r == 0x1680 ||
  (0x2000 ≤ r && r ≤ 0x200A) || r == 0x2028 || r == 0x2029 ||
  r == 0x202F || r == 0x205F || r == 0x3000

/-- Is `b` a UTF-8 continuation byte (`10xxxxxx`)? -/
def isContByte (b : Nat) : Bool := 0x80 ≤ b && b ≤ 0xBF

/-- Decode the first UTF-8 rune of a byte list, returning the code point and
the remaining bytes.  Invalid sequences decode to U+FFFD consuming one byte,
as Go's `utf8.DecodeRune` does.  Returns `none` only on the empty list. -/
def decodeRuneFront : List Nat → Option (Nat × List Nat)
  | [] => none
  | b :: rest =>
    if b < 0x80 then some (b, rest)
    else if 0xC2 ≤ b && b ≤ 0xDF then
      match rest with
      | b2 :: rest2 =>
        if isContByte b2 then some ((b - 0xC0) * 64 + (b2 - 0x80), rest2)
        else some (0xFFFD, rest)
      | [] => some (0xFFFD, rest)
    else if 0xE0 ≤ b && b ≤ 0xEF then
      match rest with
      | b2 :: b3 :: rest3 =>
        -- Go additionally restricts the first continuation byte to exclude
        -- overlong encodings and surrogates.
        let lo : Nat := if b == 0xE0 then 0xA0 else 0x80
        let hi : Nat := if b == 0xED then 0x9F else 0xBF
        if (lo ≤ b2 && b2 ≤ hi) && isContByte b3 then
          some ((b - 0xE0) * 4096 + (b2 - 0x80) * 64 + (b3 - 0x80), rest3)
        else some (0xFFFD, rest)
      | _ => some (0xFFFD, rest)
    else if 0xF0 ≤ b && b ≤ 0xF4 then
      match rest with
      | b2 :: b3 :: b4 :: rest4 =>
        let lo : Nat := if b == 0xF0 then 0x90 else 0x80
        let hi : Nat := if b == 0xF4 then 0x8F else 0xBF
        if (lo ≤ b2 && b2 ≤ hi) && isContByte b3 && isContByte b4 then
          some ((b - 0xF0) * 262144 + (b2 - 0x80) * 4096 +
                (b3 - 0x80) * 64 + (b4 - 0x80), rest4)
        else some (0xFFFD, rest)
      | _ => some (0xFFFD, rest)
    else some (0xFFFD, rest)

/-- Decode the last UTF-8 rune: the code point and the number of bytes it
occupies at the end of the list (`utf8.DecodeLastRune`). -/
def decodeRuneLast (l : List Nat) : Nat × Nat :=
  match l.getLast? with
  | none => (0xFFFD, 0)
  | some b =>
    if b < 0x80 then (b, 1)
    else
      -- scan back at most 4 bytes for a non-continuation byte
      let n := l.length
      let tryFrom (k : Nat) : Option (Nat × Nat) :=
        if k ≤ n && !(isContByte ((l.drop (n - k)).headD 0)) then
          match decodeRuneFront (l.drop (n - k)) with
          | some (r, []) => some (r, k)
          | _ => none
        else none
      match tryFrom 2 with
      | some rs => rs
      | none =>
        match tryFrom 3 with
        | some rs => rs
        | none =>
          match tryFrom 4 with
          | some rs => rs
          | none => (0xFFFD, 1)

/-- Trim leading Unicode space (fuel-bounded loop; fuel `l.length` always
suffices since each round consumes at least one byte). -/
def trimLeftSpaceGo : Nat → List Nat → List Nat
  | 0, l => l
  | fuel + 1, l =>
    match decodeRuneFront l with
    | none => l
    | some (r, rest) =>
      if isUnicodeSpace r then trimLeftSpaceGo fuel rest else l

def trimRightSpaceGo : Nat → List Nat → List Nat
  | 0, l => l
  | fuel + 1, l =>
    if l.isEmpty then l
    else
      let (r, sz) := decodeRuneLast l
      if isUnicodeSpace r then trimRightSpaceGo fuel (l.take (l.length - sz))
      else l

/-- `strings.TrimSpace` over the string's bytes. -/
def goTrimSpace (l : List Nat) : List Nat :=
  trimRightSpaceGo l.length (trimLeftSpaceGo l.length l)

/-! ## Go standard library models: `strconv.Atoi` -/

def isDigitByte (b : Nat) : Bool := 0x30 ≤ b && b ≤ 0x39

/-- Decimal value of a digit string, most significant first. -/
def digitsValAcc (acc : Nat) : List Nat → Option Nat
  | [] => some acc
  | b :: rest =>
    if isDigitByte b then digitsValAcc (acc * 10 + (b - 0x30)) rest
    else none

/-- `strconv.Atoi`: optional sign, then decimal digits; error on the empty
string, a bare sign, or a non-digit character.  (Go additionally errors on
values outside `int64`; such values lie outside `1..65535` anyway, so the
port-validity check below agrees with Go on every input.) -/
def atoi (s : List Nat) : Option Int :=
  match s with
  | [] => none
  | c :: rest =>
    let (neg, digits) :=
      if c == 0x2B then (false, rest)
      else if c == 0x2D then (true, rest)
      else (false, s)
    match digits with
    | [] => none
    | _ =>
      match digitsValAcc 0 digits with
      | none => none
      | some v => some (if neg then -(v : Int) else (v : Int))

/-! ## Go standard library models: `net.ParseIP` -/

/-- Parse a dotted-decimal IPv4 address: exactly four fields, each 1–3
digits, value ≤ 255, no leading zeros (`netip.parseIPv4Fields`). -/
def parseIPv4Field (f : List Nat) : Option Nat :=
  match f with
  | [] => none
  | [b] => if isDigitByte b then some (b - 0x30) else none
  | b :: rest =>
    -- more than one digit: leading zero is rejected
    if b == 0x30 then none
    else if isDigitByte b then
      match digitsValAcc (b - 0x30) rest with
      | none => none
      | some v => if v ≤ 255 then some v else none
    else none

def splitOnByte (sep : Nat) : List Nat → List (List Nat)
  | [] => [[]]
  | b :: rest =>
    let r := splitOnByte sep rest
    if b == sep then [] :: r
    else match r with
      | f :: fs => (b :: f) :: fs
      | [] => [[b]]

def parseIPv4 (s : List Nat) : Option (List Nat) :=
  match (splitOnByte 0x2E s).mapM parseIPv4Field with
  | some [a, b, c, d] => some [a, b, c, d]
  | _ => none

/-- Value of a hex digit byte, if any. -/
def hexDigitVal (b : Nat) : Option Nat :=
  if 0x30 ≤ b && b ≤ 0x39 then some (b - 0x30)
  else if 0x61 ≤ b && b ≤ 0x66 then some (b - 0x61 + 10)
  else if 0x41 ≤ b && b ≤ 0x46 then some (b - 0x41 + 10)
  else none

/-- Longest hex-digit span at the front: the digit bytes and the rest. -/
def hexSpan : List Nat → List Nat × List Nat
  | [] => ([], [])
  | b :: rest =>
    match hexDigitVal b with
    | some _ =>
      let (ds, r) := hexSpan rest
      (b :: ds, r)
    | none => ([], b :: rest)

def hexVal (acc : Nat) : List Nat → Nat
  | [] => acc
  | b :: rest => hexVal (acc * 16 + ((hexDigitVal b).getD 0)) rest

/-- Main loop of `netip.parseIPv6`: `acc` holds the bytes parsed so far
(`i = acc.length`), `ell` the byte position of a `::` if seen.  Mirrors the
post-loop processing in `v6post`. -/
def v6post (s : List Nat) (acc : List Nat) (ell : Option Nat) :
    Option (List Nat) :=
  if !s.isEmpty then none          -- trailing garbage after address
  else if acc.length < 16 then
    match ell with
    | none => none                 -- address string too short
    | some e =>
      some (acc.take e ++ List.replicate (16 - acc.length) 0 ++ acc.drop e)
  else if ell.isSome then none     -- :: must expand to ≥ 1 zero field
  else some acc

def v6loop (s : List Nat) (acc : List Nat) (ell : Option Nat) :
    Option (List Nat) :=
  if h16 : 16 ≤ acc.length then v6post s acc ell
  else
    let (ds, rest) := hexSpan s
    if hds : ds.isEmpty then none  -- each field must have at least one digit
    else if 0xFFFF < hexVal 0 ds then none  -- field value ≥ 2^16
    else if rest.headD 0 == 0x2E && !rest.isEmpty then
      -- trailing embedded IPv4, re-parsed from the start of this field
      if !(ell.isSome || acc.length == 12) then none
      else if 16 < acc.length + 4 then none
      else
        match parseIPv4 (ds ++ rest) with
        | none => none
        | some b4 => v6post [] (acc ++ b4) ell
    else
      let val := hexVal 0 ds
      let acc' := acc ++ [val / 256, val % 256]
      match rest with
      | [] => v6post [] acc' ell
      | c :: rest' =>
        if c ≠ 0x3A then none           -- unexpected character, want colon
        else match rest' with
          | [] => none                  -- colon must be followed by more
          | c2 :: rest'' =>
            if c2 == 0x3A then
              if ell.isSome then none   -- multiple ::
              else match rest'' with
                | [] => v6post [] acc' (some acc'.length)
                | _ => v6loop rest'' acc' (some acc'.length)
            else v6loop rest' acc' ell
termination_by 16 - acc.length
decreasing_by
  · simp at h16; simp [List.length_append]; omega
  · simp at h16; simp [List.length_append]; omega

def parseIPv6 (s : List Nat) : Option (List Nat) :=
  match s with
  | 0x3A :: 0x3A :: rest =>
    match rest with
    | [] => some (List.replicate 16 0)
    | _ => v6loop rest [] (some 0)
  | _ => v6loop s [] none

/-- Marker prefix of an IPv4 address embedded in 16 bytes. -/
def v4InV6Marker : List Nat := [0, 0, 0, 0, 0, 0, 0, 0, 0, 0, 0xFF, 0xFF]

/-- `net.ParseIP`: scan for the first of `.`, `:`, `%`; dispatch to the
IPv4 or IPv6 parser (a zone `%` makes `ParseIP` return nil).  The result is
always 16 bytes; an IPv4 address is returned in 4-in-6 mapped form, as
`net.ParseIP` does via `As16`. -/
def parseIPScan : List Nat → List Nat → Option (List Nat)
  | _, [] => none  -- no separator: not an IP address
  | orig, b :: rest =>
    if b == 0x2E then (parseIPv4 orig).map (fun b4 => v4InV6Marker ++ b4)
    else if b == 0x3A then parseIPv6 orig
    else if b == 0x25 then none
    else parseIPScan orig rest

def parseIP (s : List Nat) : Option (List Nat) := parseIPScan s s

/-- `net.IP.To4`: a 4-byte IP, or a 16-byte IP with the 4-in-6 marker. -/
def ipTo4 (ip : List Nat) : Option (List Nat) :=
  if ip.length == 4 then some ip
  else if ip.length == 16 && ip.take 12 == v4InV6Marker then
    some (ip.drop 12)
  else none

/-- `net.IP.To16`. -/
def ipTo16 (ip : List Nat) : Option (List Nat) :=
  if ip.length == 4 then some (v4InV6Marker ++ ip)
  else if ip.length == 16 then some ip
  else none

/-! ## Go standard library models: `net.SplitHostPort` -/

def indexByte (l : List Nat) (b : Nat) : Option Nat := l.indexOf? b

def lastIndexByte (l : List Nat) (b : Nat) : Option Nat :=
  match (l.reverse).indexOf? b with
  | none => none
  | some j => some (l.length - 1 - j)

/-- `net.SplitHostPort`.  All distinct error cases collapse to `none`,
since `DialSocks5` only tests `err != nil`. -/
def splitHostPort (hp : List Nat) : Option (List Nat × List Nat) :=
  match lastIndexByte hp 0x3A with
  | none => none                               -- missing port
  | some i =>
    if hp.headD 0 == 0x5B then                 -- '['
      match indexByte hp 0x5D with             -- ']'
      | none => none                           -- missing ']'
      | some endIdx =>
        if endIdx + 1 == hp.length then none   -- missing port
        else if endIdx + 1 == i then
          let host := (hp.drop 1).take (endIdx - 1)
          if (indexByte (hp.drop 1) 0x5B).isSome then none
          else if (indexByte (hp.drop (endIdx + 1)) 0x5D).isSome then none
          else some (host, hp.drop (i + 1))
        else none                              -- too many colons / missing port
    else
      let host := hp.take i
      if (indexByte host 0x3A).isSome then none     -- too many colons
      else if (indexByte hp 0x5B).isSome then none  -- unexpected '['
      else if (indexByte hp 0x5D).isSome then none  -- unexpected ']'
      else some (host, hp.drop (i + 1))

/-! ## SOCKS5 client (`internal/proxy/socks5.go`) -/

/-- One distinct error per failure site in `DialSocks5` (dial failure of the
underlying TCP connection, and write failures, are environment effects that
cannot occur in the pure stream model; every other failure site appears). -/
inductive SocksError
  | greetingRead        -- "socks greeting read"
  | negotiation         -- "socks auth negotiation failed"
  | targetParse         -- "target addr parse"
  | invalidPort         -- "target port is invalid"
  | invalidHost         -- "target host is invalid"
  | connectRead         -- "socks connect read"
  | invalidReplyVersion -- "invalid socks version in reply"
  | connectFailed (code : Nat) -- "socks connect failed, code=0x%x"
  | domainLenRead       -- "socks reply domain len read"
  | unknownAddrType     -- "socks reply had unknown address type"
  | replyTailRead       -- "socks reply tail read"
deriving DecidableEq, Repr

/-- Big-endian bytes of `uint16(port)`. -/
def portBytes (port : Nat) : List Nat := [port / 256 % 256, port % 256]

/-- Lines 41–72 of `DialSocks5`: parse `targetAddr`, validate the port and
host, and build the CONNECT request bytes
`[0x05, 0x01, 0x00, addrType, addrBytes..., portHi, portLo]`. -/
def buildConnectRequest (targetAddr : List Nat) : Except SocksError (List Nat) :=
  match splitHostPort targetAddr with
  | none => .error .targetParse
  | some (host, portStr) =>
    match atoi portStr with
    | none => .error .invalidPort
    | some p =>
      if p < 1 ∨ 65535 < p then .error .invalidPort
      else
        let port := p.toNat
        let base : List Nat := [5, 1, 0]
        match (parseIP host).bind ipTo4 with
        | some b4 => .ok (base ++ [1] ++ b4 ++ portBytes port)
        | none =>
          match (parseIP host).bind ipTo16 with
          | some b16 => .ok (base ++ [4] ++ b16 ++ portBytes port)
          | none =>
            let h := goTrimSpace host
            if h.length = 0 ∨ 255 < h.length then .error .invalidHost
            else .ok (base ++ [3, h.length] ++ h ++ portBytes port)

/-- Take the next byte a `conn.Read` can deliver, with the rest of the
stream (a fully consumed chunk disappears). -/
def popByte : NetStream → Option (Nat × NetStream)
  | [] => none
  | [] :: rest => popByte rest
  | (b :: c) :: rest => some (b, match c with | [] => rest | _ => c :: rest)

/-- `readFull` on the raw connection: read exactly `need` bytes, or fail at
end of stream.  Specialised byte-by-byte to the chunk semantics: the loop
`for n < len(b) { k, err := r.Read(b[n:]) ... }` consumes the same bytes. -/
def readFullConn (s : NetStream) (need : Nat) : Option (List Nat × NetStream) :=
  match need with
  | 0 => some ([], s)
  | n + 1 =>
    match popByte s with
    | none => none
    | some (b, s') =>
      match readFullConn s' n with
      | none => none
      | some (bs, s'') => some (b :: bs, s'')

/-- `bufio.NewReader(conn)` state: the buffered bytes plus the raw stream. -/
abbrev BufConn := List Nat × NetStream

/-- A buffer-fill step: one `conn.Read` into the 4096-byte internal buffer,
taking at most 4096 bytes of the first non-empty chunk. -/
def connFill (s : NetStream) : Option (List Nat × NetStream) :=
  match s with
  | [] => none
  | [] :: rest => connFill rest
  | c :: rest =>
    some (c.take 4096, if 4096 < c.length then c.drop 4096 :: rest else rest)

/-- `br.ReadByte` (also the unit step of reads through the buffered reader:
every read `DialSocks5` issues through `br` is at most 4 bytes, far below
the 4096-byte buffer, so each one is served from the buffer, refilled by
whole `conn.Read` calls). -/
def bufReadByte (bc : BufConn) : Option (Nat × BufConn) :=
  match bc with
  | (b :: buf, s) => some (b, (buf, s))
  | ([], s) =>
    match connFill s with
    | none => none
    | some (b :: cbuf, s') => some (b, (cbuf, s'))
    | some ([], _) => none  -- unreachable: connFill returns non-empty bytes

/-- `readFull` through the buffered reader. -/
def readFullBuf (bc : BufConn) (need : Nat) : Option (List Nat × BufConn) :=
  match need with
  | 0 => some ([], bc)
  | n + 1 =>
    match bufReadByte bc with
    | none => none
    | some (b, bc') =>
      match readFullBuf bc' n with
      | none => none
      | some (bs, bc'') => some (b :: bs, bc'')

/-- Result of a `DialSocks5` run against a reply stream: the byte messages
written to the proxy, in order; the outcome (on success, the stream the
caller can still read from the returned raw connection — any bytes held in
the `bufio` buffer are gone); and whether the connection was closed. -/
structure DialResult where
  writes : List (List Nat)
  outcome : Except SocksError NetStream
  closed : Bool
deriving DecidableEq, Repr

/-- Lines 111–120: discard `skip` bound-address bytes plus the 2-byte bound
port, then return the raw connection (dropping the buffer). -/
def finishTail (writes : List (List Nat)) (br : BufConn) (skip : Nat) :
    DialResult :=
  match readFullBuf br (skip + 2) with
  | none => ⟨writes, .error .replyTailRead, true⟩
  | some (_, br') => ⟨writes, .ok br'.2, false⟩

/-- `DialSocks5` after a successful TCP dial, as a function of the target
address and of the chunked byte stream the proxy sends.  Writes always
succeed; reads fail exactly at end of stream. -/
def dialSocks5 (targetAddr : List Nat) (s : NetStream) : DialResult :=
  match readFullConn s 2 with
  | none => ⟨[[5, 1, 0]], .error .greetingRead, true⟩
  | some (resp, s1) =>
    if resp.getD 0 0 ≠ 5 ∨ resp.getD 1 0 ≠ 0 then
      ⟨[[5, 1, 0]], .error .negotiation, true⟩
    else
      match buildConnectRequest targetAddr with
      | .error e => ⟨[[5, 1, 0]], .error e, true⟩
      | .ok req =>
        match readFullBuf ([], s1) 4 with
        | none => ⟨[[5, 1, 0], req], .error .connectRead, true⟩
        | some (head, br1) =>
          if head.getD 0 0 ≠ 5 then
            ⟨[[5, 1, 0], req], .error .invalidReplyVersion, true⟩
          else if head.getD 1 0 ≠ 0 then
            ⟨[[5, 1, 0], req], .error (.connectFailed (head.getD 1 0)), true⟩
          else if head.getD 3 0 = 1 then finishTail [[5, 1, 0], req] br1 4
          else if head.getD 3 0 = 4 then finishTail [[5, 1, 0], req] br1 16
          else if head.getD 3 0 = 3 then
            match bufReadByte br1 with
            | none => ⟨[[5, 1, 0], req], .error .domainLenRead, true⟩
            | some (l, br2) => finishTail [[5, 1, 0], req] br2 l
          else ⟨[[5, 1, 0], req], .error .unknownAddrType, true⟩

/-! ## Speed harness (`speedHTTP` in `cmd/health-node/main.go`)

The HTTP response body is a plain byte list: `io.CopyN`/`io.Copy` results
do not depend on chunk boundaries, only on the bytes available. -/

/-- The only read error a pure in-memory body can produce. -/
inductive CopyErr
  | eof
deriving DecidableEq, Repr

/-- `io.CopyN(io.Discard, body, budget)`: bytes copied, and `io.EOF` when
the source ended before the budget was reached. -/
def copyN (body : List Nat) (budget : Nat) : Nat × Option CopyErr :=
  match body, budget with
  | _, 0 => (0, none)
  | [], _ + 1 => (0, some .eof)
  | _ :: rest, b + 1 =>
    let r := copyN rest b
    (r.1 + 1, r.2)

/-- `io.Copy(io.Discard, body)`: reads the whole body; no error in the pure
model. -/
def copyAll (body : List Nat) : Nat × Option CopyErr := (body.length, none)

inductive SpeedError
  | badStatus (code : Nat) -- "unexpected HTTP status %d"
  | readError              -- a non-EOF copy error
deriving DecidableEq, Repr

/-- Lines 276–292 of `cmd/health-node/main.go` (`speedHTTP` after the
response arrives): status gate, then budgeted or full body read.  `io.EOF`
from `CopyN` is tolerated; any other copy error fails. -/
def speedHTTP (statusCode : Nat) (body : List Nat) (maxBytes : Int) :
    Except SpeedError Nat :=
  if 400 ≤ statusCode then .error (.badStatus statusCode)
  else if 0 < maxBytes then
    match copyN body maxBytes.toNat with
    | (n, some e) => if e ≠ .eof then .error .readError else .ok n
    | (n, none) => .ok n
  else
    match copyAll body with
    | (_, some _) => .error .readError
    | (n, none) => .ok n

/-! ## Metered relay traffic accounting (`relayConn` / `trafficMeter`) -/

/-- The shared `trafficMeter`: two `atomic.Uint64` cumulative counters.
Field values are the `uint64` representations, so they live below `2^64`
and additions wrap. -/
structure TrafficMeter where
  upTotal : Nat
  downTotal : Nat
deriving DecidableEq, Repr

/-- `atomic.Uint64.Add`: wrapping 64-bit addition. -/
def u64add (a b : Nat) : Nat := (a + b) % 2 ^ 64

/-- The counter mutations `relayConn` performs for one relayed connection
that copied `upN` bytes client→target and `downN` bytes target→client: each
direction does a single atomic add, only when its count is positive.  (The
two copy goroutines touch disjoint fields, so their interleaving is
irrelevant to the final counter values.) -/
def relayConnMeter (m : TrafficMeter) (upN downN : Nat) : TrafficMeter :=
  let m1 := if 0 < upN then { m with upTotal := u64add m.upTotal upN } else m
  if 0 < downN then { m1 with downTotal := u64add m1.downTotal downN } else m1

/-! ## Process supervisor configuration (`Runner.Start`) -/

/-- The `log` object of the generated core configuration.  `none` means the
key is absent from the marshalled JSON. -/
structure LogSection where
  loglevel : String
  access : Option String
  error : Option String
deriving DecidableEq, Repr

/-- The single inbound of the generated configuration. -/
structure InboundSection where
  listen : String
  port : Nat
  protocol : String
  settingsUdp : Option Bool  -- `settings.udp` when present
deriving DecidableEq, Repr

/-- The generated core configuration; the outbound descriptor is opaque. -/
structure CoreConfig where
  log : LogSection
  inbound : InboundSection
  outboundPrimary : String      -- the caller-supplied descriptor, verbatim
  outboundDirectTag : String
  outboundDirectProtocol : String
deriving DecidableEq, Repr

structure RunnerM where
  corePath : String
  port : Nat
  inboundProtocol : String
  logLevel : String
deriving DecidableEq, Repr

/-- The handle `Runner.Start` returns. -/
structure StartedM where
  configPath : String
  logPath : String
  accessLogPath : String
deriving DecidableEq, Repr

/-- ASCII `strings.TrimSpace` for the short configuration strings. -/
def trimStr (s : String) : String :=
  ⟨(s.toList.dropWhile (fun c => isUnicodeSpace c.toNat)).reverse.dropWhile
      (fun c => isUnicodeSpace c.toNat) |>.reverse⟩

/-- `Runner.Start` (the extended variant of `cmd/health-node`, lines
392–469): validation, configuration synthesis, and persistence, with the
external effects (temp-dir creation, file writes, process launch) made
explicit.  `dir` is the fresh ephemeral directory `os.MkdirTemp` returns.
The returned `CoreConfig` is the `body` that `os.WriteFile` persists at
`configPath`: note that in the source `body` is marshalled from `cfg`
*before* `cfg["log"]` is reassigned with the `access`/`error` file paths,
so that reassignment never reaches the persisted file. -/
def runnerStart (r : RunnerM) (outbound : String) (dir : String) :
    Except String (StartedM × CoreConfig) :=
  if r.corePath = "" then .error "core path is required"
  else if r.port = 0 then .error "local socks port is required"
  else
    let inboundProtocol :=
      if trimStr r.inboundProtocol = "" then "socks" else trimStr r.inboundProtocol
    if inboundProtocol ≠ "socks" ∧ inboundProtocol ≠ "http" then
      .error "unsupported inbound protocol"
    else
      let logLevel := if trimStr r.logLevel = "" then "warning" else trimStr r.logLevel
      let inbound : InboundSection :=
        { listen := "127.0.0.1", port := r.port, protocol := inboundProtocol,
          settingsUdp := if inboundProtocol = "socks" then some false else none }
      let cfg : CoreConfig :=
        { log := { loglevel := logLevel, access := none, error := none },
          inbound := inbound, outboundPrimary := outbound,
          outboundDirectTag := "direct", outboundDirectProtocol := "freedom" }
      let body := cfg  -- json.MarshalIndent(cfg): snapshot taken HERE
      let configPath := dir ++ "/config.json"
      let logPath := dir ++ "/core.log"
      let accessLogPath := dir ++ "/access.log"
      -- cfg["log"] = {...access, error...}: mutates cfg after marshalling;
      -- `body` (already serialised) is what os.WriteFile persists.
      let _cfgAfterLogUpdate : CoreConfig :=
        { cfg with log := { loglevel := logLevel, access := some accessLogPath,
                            error := some logPath } }
      .ok ({ configPath := configPath, logPath := logPath,
             accessLogPath := accessLogPath }, body)

/-! ## `Started.ReadLogTail` -/

/-- Handle state relevant to `ReadLogTail` (`s == nil` is `none`). -/
structure StartedLog where
  logPath : String
deriving DecidableEq, Repr

/-- `Started.ReadLogTail` with the filesystem explicit: `readFile p` is
`os.ReadFile(p)`'s result, `none` meaning missing/unreadable.  Total: every
failure mode yields the empty byte string. -/
def readLogTail (s : Option StartedLog) (readFile : String → Option (List Nat)) :
    List Nat :=
  match s with
  | none => []
  | some st =>
    if st.logPath = "" then []
    else
      match readFile st.logPath with
      | none => []
      | some b => if 4000 < b.length then b.drop (b.length - 4000) else b

/-! ## Read-primitive lemmas -/

lemma readFullConn_two (a b : Nat) (c : List Nat) (rest : NetStream) :
    readFullConn ((a :: b :: c) :: rest) 2 =
      some ([a, b], match c with | [] => rest | _ => c :: rest) := by
  cases c <;> simp [readFullConn, popByte]

lemma readFullBuf_buffer (n : Nat) :
    ∀ (buf : List Nat) (s : NetStream), n ≤ buf.length →
      readFullBuf (buf, s) n = some (buf.take n, (buf.drop n, s)) := by
  induction n with
  | zero => intro buf s _; simp [readFullBuf]
  | succ n ih =>
    intro buf s h
    match buf with
    | [] => simp at h
    | b :: buf' =>
      simp only [List.length_cons, Nat.succ_le_succ_iff] at h
      simp [readFullBuf, bufReadByte, ih buf' s h]

lemma connFill_small (c : List Nat) (rest : NetStream) (hne : c ≠ [])
    (hlen : c.length ≤ 4096) : connFill (c :: rest) = some (c, rest) := by
  match c with
  | [] => exact absurd rfl hne
  | b :: c' =>
    simp only [connFill]
    rw [List.take_of_length_le hlen, if_neg (by omega)]

lemma readFullBuf_fill (c : List Nat) (rest : NetStream) (n : Nat)
    (hne : c ≠ []) (hlen : c.length ≤ 4096) (h1 : 1 ≤ n) (h2 : n ≤ c.length) :
    readFullBuf ([], c :: rest) n = some (c.take n, (c.drop n, rest)) := by
  match c, n with
  | b :: c', m + 1 =>
    have hfill : connFill ((b :: c') :: rest) = some (b :: c', rest) :=
      connFill_small _ rest hne hlen
    have hbyte : bufReadByte ([], (b :: c') :: rest) = some (b, (c', rest)) := by
      simp [bufReadByte, hfill]
    simp only [List.length_cons, Nat.succ_le_succ_iff] at h2
    simp [readFullBuf, hbyte, readFullBuf_buffer m c' rest h2]

lemma readFullBuf_exhaust (n : Nat) :
    ∀ (buf : List Nat), buf.length < n → readFullBuf (buf, ([] : NetStream)) n = none := by
  induction n with
  | zero => intro buf h; omega
  | succ n ih =>
    intro buf h
    match buf with
    | [] => simp [readFullBuf, bufReadByte, connFill]
    | b :: buf' =>
      simp only [List.length_cons] at h
      simp [readFullBuf, bufReadByte, ih buf' (by omega)]

/-- Every failure path of `dialSocks5` closes the connection first. -/
lemma dialSocks5_error_closed (t : List Nat) (s : NetStream) (e : SocksError) :
    (dialSocks5 t s).outcome = .error e → (dialSocks5 t s).closed = true := by
  unfold dialSocks5 finishTail
  repeat' split
  all_goals intro h
  all_goals first | rfl | (exfalso; exact Except.noConfusion h)

/-- The only messages `dialSocks5` ever writes: the greeting, and then — of
a second message is sent at all — exactly the bytes `buildConnectRequest`
produces for the target. -/
lemma dialSocks5_writes (t : List Nat) (s : NetStream) :
    (dialSocks5 t s).writes = [[5, 1, 0]] ∨
    ∃ req, buildConnectRequest t = .ok req ∧
      (dialSocks5 t s).writes = [[5, 1, 0], req] := by
  unfold dialSocks5 finishTail
  repeat' split
  all_goals first
    | (left; rfl)
    | (right; exact ⟨_, by assumption, rfl⟩)

lemma ipTo4_mapped (a b c d : Nat) :
    ipTo4 (v4InV6Marker ++ [a, b, c, d]) = some [a, b, c, d] := rfl

/-! ## Claims -/

/-- **C1.** After the proxy accepts the no-auth greeting, the CONNECT
request `DialSocks5` sends is exactly
`[0x05, 0x01, 0x00, addrType, addrBytes..., portHi, portLo]` with
big-endian port — an IPv4-literal host giving type `0x01` plus its 4 raw
bytes and a domain host giving type `0x03` plus a length byte plus its raw
bytes; in particular, target `"93.184.216.34:443"` yields
`05 01 00 01 5D B8 D8 22 01 BB` and `"example.com:80"` yields
`05 01 00 03 0B 65 78 61 6D 70 6C 65 2E 63 6F 6D 00 50`. -/
theorem C1_connect_request_bytes :
    (buildConnectRequest (str2bytes "93.184.216.34:443") =
      .ok [0x05, 0x01, 0x00, 0x01, 0x5D, 0xB8, 0xD8, 0x22, 0x01, 0xBB]) ∧
    (buildConnectRequest (str2bytes "example.com:80") =
      .ok [0x05, 0x01, 0x00, 0x03, 0x0B, 0x65, 0x78, 0x61, 0x6D, 0x70,
           0x6C, 0x65, 0x2E, 0x63, 0x6F, 0x6D, 0x00, 0x50]) ∧
    (∀ t s, (dialSocks5 t s).writes = [[5, 1, 0]] ∨
      ∃ req, buildConnectRequest t = .ok req ∧
        (dialSocks5 t s).writes = [[5, 1, 0], req]) ∧
    (∀ target host portStr p a b c d,
      splitHostPort target = some (host, portStr) → atoi portStr = some p →
      1 ≤ p → p ≤ 65535 →
      parseIP host = some (v4InV6Marker ++ [a, b, c, d]) →
      buildConnectRequest target =
        .ok ([5, 1, 0, 1, a, b, c, d] ++ [p.toNat / 256 % 256, p.toNat % 256])) ∧
    (∀ target host portStr p,
      splitHostPort target = some (host, portStr) → atoi portStr = some p →
      1 ≤ p → p ≤ 65535 → parseIP host = none →
      goTrimSpace host ≠ [] → (goTrimSpace host).length ≤ 255 →
      buildConnectRequest target =
        .ok ([5, 1, 0, 3, (goTrimSpace host).length] ++ goTrimSpace host ++
          [p.toNat / 256 % 256, p.toNat % 256])) := by
  refine ⟨by decide, by decide, dialSocks5_writes, ?_, ?_⟩
  · intro target host portStr p a b c d hsplit hatoi hp1 hp2 hip
    simp only [buildConnectRequest, hsplit, hatoi]
    rw [if_neg (by omega : ¬(p < 1 ∨ 65535 < p))]
    simp [hip, ipTo4_mapped, portBytes]
  · intro target host portStr p hsplit hatoi hp1 hp2 hip hne hlen
    simp only [buildConnectRequest, hsplit, hatoi]
    rw [if_neg (by omega : ¬(p < 1 ∨ 65535 < p))]
    have hcond : ¬((goTrimSpace host).length = 0 ∨ 255 < (goTrimSpace host).length) := by
      refine not_or.mpr ⟨?_, by omega⟩
      simpa [List.length_eq_zero] using hne
    simp only [hip, Option.none_bind]
    rw [if_neg hcond]
    simp [portBytes]

/-- Witness for C1: the IPv4 branch instantiated at `"93.184.216.34:443"`
with every hypothesis discharged concretely. -/
theorem C1_connect_request_bytes_witness :
    buildConnectRequest (str2bytes "93.184.216.34:443") =
      .ok ([5, 1, 0, 1, 93, 184, 216, 34] ++
        [(443 : Int).toNat / 256 % 256, (443 : Int).toNat % 256]) :=
  C1_connect_request_bytes.2.2.2.1 (str2bytes "93.184.216.34:443")
    (str2bytes "93.184.216.34") (str2bytes "443") 443 93 184 216 34
    (by decide) (by decide) (by decide) (by decide) (by decide)

/-- **C3.** If the 2-byte greeting reply is anything other than
`[0x05, 0x00]`, `DialSocks5` fails with the negotiation error, closes the
connection, and writes nothing beyond the greeting (no CONNECT request). -/
theorem C3_greeting_reply_rejected (t : List Nat) (b0 b1 : Nat)
    (c : List Nat) (rest : NetStream) (h : ¬(b0 = 5 ∧ b1 = 0)) :
    dialSocks5 t ((b0 :: b1 :: c) :: rest) =
      ⟨[[5, 1, 0]], .error .negotiation, true⟩ := by
  have hcond : ([b0, b1].getD 0 0 ≠ 5 ∨ [b0, b1].getD 1 0 ≠ 0) := by
    simp only [List.getD_cons_zero, List.getD_cons_succ]
    tauto
  simp only [dialSocks5, readFullConn_two, if_pos hcond]

/-- Witness for C3: greeting reply `05 01` (method mismatch). -/
theorem C3_greeting_reply_rejected_witness :
    dialSocks5 (str2bytes "example.com:80") [[5, 1]] =
      ⟨[[5, 1, 0]], .error .negotiation, true⟩ :=
  C3_greeting_reply_rejected (str2bytes "example.com:80") 5 1 [] []
    (by decide)

/-- **C4.** A CONNECT reply whose status byte (byte 1) is non-zero makes
`DialSocks5` fail with an error carrying that numeric code, close the
connection, and return no usable connection. -/
theorem C4_connect_status_error (t req : List Nat) (code rsv atype : Nat)
    (rest2 : NetStream) (hreq : buildConnectRequest t = .ok req)
    (hcode : code ≠ 0) :
    dialSocks5 t ([5, 0] :: [5, code, rsv, atype] :: rest2) =
      ⟨[[5, 1, 0], req], .error (.connectFailed code), true⟩ := by
  have hgreet : readFullConn ([5, 0] :: [5, code, rsv, atype] :: rest2) 2 =
      some ([5, 0], [5, code, rsv, atype] :: rest2) :=
    readFullConn_two 5 0 [] _
  have hhead : readFullBuf ([], [5, code, rsv, atype] :: rest2) 4 =
      some ([5, code, rsv, atype], ([], rest2)) := by
    simpa using readFullBuf_fill [5, code, rsv, atype] rest2 4
      (by simp) (by simp) (by omega) (by simp)
  simp only [dialSocks5, hgreet, hhead]
  rw [if_neg (by simp)]
  simp only [hreq]
  rw [if_neg (by simp), if_pos (by simpa using hcode)]
  simp

/-- Witness for C4: status byte `0x05` is reported as code `0x5`. -/
theorem C4_connect_status_error_witness :
    dialSocks5 (str2bytes "1.2.3.4:80") ([5, 0] :: [5, 5, 0, 1] :: []) =
      ⟨[[5, 1, 0], [5, 1, 0, 1, 1, 2, 3, 4, 0, 80]],
        .error (.connectFailed 5), true⟩ :=
  C4_connect_status_error (str2bytes "1.2.3.4:80")
    [5, 1, 0, 1, 1, 2, 3, 4, 0, 80] 5 0 1 [] (by decide) (by decide)

/-- **C5.** After a successful CONNECT reply header, `DialSocks5` discards
exactly the bound address plus the 2-byte bound port — 4+2 bytes for
address type `0x01`, 16+2 for `0x04`, and a length byte `l` plus `l`+2
bytes for `0x03` — leaving the rest of the stream untouched for the
caller, and fails with the unknown-address-type error (closing the
connection) for every other address-type byte. -/
theorem C5_bound_address_discard (t req : List Nat) (rsv : Nat)
    (hreq : buildConnectRequest t = .ok req) :
    (∀ (tail : List Nat) (rest3 : NetStream), tail.length = 6 →
      dialSocks5 t ([5, 0] :: [5, 0, rsv, 1] :: tail :: rest3) =
        ⟨[[5, 1, 0], req], .ok rest3, false⟩) ∧
    (∀ (tail : List Nat) (rest3 : NetStream), tail.length = 18 →
      dialSocks5 t ([5, 0] :: [5, 0, rsv, 4] :: tail :: rest3) =
        ⟨[[5, 1, 0], req], .ok rest3, false⟩) ∧
    (∀ (l : Nat) (tail : List Nat) (rest3 : NetStream), l ≤ 255 →
      tail.length = l + 2 →
      dialSocks5 t ([5, 0] :: [5, 0, rsv, 3] :: (l :: tail) :: rest3) =
        ⟨[[5, 1, 0], req], .ok rest3, false⟩) ∧
    (∀ (atype : Nat) (rest2 : NetStream), atype ≠ 1 → atype ≠ 3 → atype ≠ 4 →
      dialSocks5 t ([5, 0] :: [5, 0, rsv, atype] :: rest2) =
        ⟨[[5, 1, 0], req], .error .unknownAddrType, true⟩) := by
  refine ⟨?_, ?_, ?_, ?_⟩
  · intro tail rest3 hlen
    have hgreet : readFullConn ([5, 0] :: [5, 0, rsv, 1] :: tail :: rest3) 2 =
        some ([5, 0], [5, 0, rsv, 1] :: tail :: rest3) :=
      readFullConn_two 5 0 [] _
    have hhead : readFullBuf ([], [5, 0, rsv, 1] :: tail :: rest3) 4 =
        some ([5, 0, rsv, 1], ([], tail :: rest3)) := by
      simpa using readFullBuf_fill [5, 0, rsv, 1] _ 4
        (by simp) (by simp) (by omega) (by simp)
    have htail : readFullBuf ([], tail :: rest3) 6 =
        some (tail.take 6, (tail.drop 6, rest3)) :=
      readFullBuf_fill tail rest3 6
        (by rintro rfl; simp at hlen) (by omega) (by omega) (by omega)
    simp only [dialSocks5, hgreet, hhead]
    rw [if_neg (by simp)]
    simp only [hreq]
    rw [if_neg (by simp), if_neg (by simp), if_pos (by rfl)]
    simp [finishTail, htail]
  · intro tail rest3 hlen
    have hgreet : readFullConn ([5, 0] :: [5, 0, rsv, 4] :: tail :: rest3) 2 =
        some ([5, 0], [5, 0, rsv, 4] :: tail :: rest3) :=
      readFullConn_two 5 0 [] _
    have hhead : readFullBuf ([], [5, 0, rsv, 4] :: tail :: rest3) 4 =
        some ([5, 0, rsv, 4], ([], tail :: rest3)) := by
      simpa using readFullBuf_fill [5, 0, rsv, 4] _ 4
        (by simp) (by simp) (by omega) (by simp)
    have htail : readFullBuf ([], tail :: rest3) 18 =
        some (tail.take 18, (tail.drop 18, rest3)) :=
      readFullBuf_fill tail rest3 18
        (by rintro rfl; simp at hlen) (by omega) (by omega) (by omega)
    simp only [dialSocks5, hgreet, hhead]
    rw [if_neg (by simp)]
    simp only [hreq]
    rw [if_neg (by simp), if_neg (by simp), if_neg (by simp), if_pos (by rfl)]
    simp [finishTail, htail]
  · intro l tail rest3 hl hlen
    have hgreet : readFullConn ([5, 0] :: [5, 0, rsv, 3] :: (l :: tail) :: rest3) 2 =
        some ([5, 0], [5, 0, rsv, 3] :: (l :: tail) :: rest3) :=
      readFullConn_two 5 0 [] _
    have hhead : readFullBuf ([], [5, 0, rsv, 3] :: (l :: tail) :: rest3) 4 =
        some ([5, 0, rsv, 3], ([], (l :: tail) :: rest3)) := by
      simpa using readFullBuf_fill [5, 0, rsv, 3] _ 4
        (by simp) (by simp) (by omega) (by simp)
    have hbyte : bufReadByte ([], (l :: tail) :: rest3) = some (l, (tail, rest3)) := by
      simp [bufReadByte,
        connFill_small (l :: tail) rest3 (by simp) (by simp; omega)]
    have htail : readFullBuf (tail, rest3) (l + 2) =
        some (tail.take (l + 2), (tail.drop (l + 2), rest3)) :=
      readFullBuf_buffer (l + 2) tail rest3 (by omega)
    simp only [dialSocks5, hgreet, hhead]
    rw [if_neg (by simp)]
    simp only [hreq]
    rw [if_neg (by simp), if_neg (by simp), if_neg (by simp), if_neg (by simp),
      if_pos (by rfl)]
    simp [hbyte, finishTail, htail]
  · intro atype rest2 h1 h3 h4
    have hgreet : readFullConn ([5, 0] :: [5, 0, rsv, atype] :: rest2) 2 =
        some ([5, 0], [5, 0, rsv, atype] :: rest2) :=
      readFullConn_two 5 0 [] _
    have hhead : readFullBuf ([], [5, 0, rsv, atype] :: rest2) 4 =
        some ([5, 0, rsv, atype], ([], rest2)) := by
      simpa using readFullBuf_fill [5, 0, rsv, atype] _ 4
        (by simp) (by simp) (by omega) (by simp)
    simp only [dialSocks5, hgreet, hhead]
    rw [if_neg (by simp)]
    simp only [hreq]
    rw [if_neg (by simp), if_neg (by simp), if_neg (by simpa using h1),
      if_neg (by simpa using h4), if_neg (by simpa using h3)]

/-- Witness for C5: a success run with address type `0x01` and a 6-byte
tail, showing exactly that tail being discarded. -/
theorem C5_bound_address_discard_witness :
    dialSocks5 (str2bytes "1.2.3.4:80")
        ([5, 0] :: [5, 0, 0, 1] :: [9, 9, 9, 9, 0, 80] :: [[42]]) =
      ⟨[[5, 1, 0], [5, 1, 0, 1, 1, 2, 3, 4, 0, 80]], .ok [[42]], false⟩ :=
  (C5_bound_address_discard (str2bytes "1.2.3.4:80")
      [5, 1, 0, 1, 1, 2, 3, 4, 0, 80] 0 (by decide)).1
    [9, 9, 9, 9, 0, 80] [[42]] (by decide)

/-- **C6.** An invalid port (not an integer in 1..65535) or an invalid
non-IP host (empty or longer than 255 bytes after trimming) makes
`DialSocks5` fail with the corresponding address-parsing error, close the
connection, and send no CONNECT request; the failure stages are pairwise
distinct error values, and every failure closes the connection before
returning. -/
theorem C6_parse_failures_distinguished :
    (∀ (target host portStr : List Nat) (rest : NetStream),
      splitHostPort target = some (host, portStr) →
      (∀ v, atoi portStr = some v → v < 1 ∨ 65535 < v) →
      dialSocks5 target ([5, 0] :: rest) =
        ⟨[[5, 1, 0]], .error .invalidPort, true⟩) ∧
    (∀ (target host portStr : List Nat) (p : Int) (rest : NetStream),
      splitHostPort target = some (host, portStr) → atoi portStr = some p →
      1 ≤ p → p ≤ 65535 → parseIP host = none →
      (goTrimSpace host = [] ∨ 255 < (goTrimSpace host).length) →
      dialSocks5 target ([5, 0] :: rest) =
        ⟨[[5, 1, 0]], .error .invalidHost, true⟩) ∧
    (∀ (t : List Nat) (s : NetStream) (e : SocksError),
      (dialSocks5 t s).outcome = .error e → (dialSocks5 t s).closed = true) ∧
    ([SocksError.greetingRead, .negotiation, .targetParse, .invalidPort,
      .invalidHost, .connectRead, .invalidReplyVersion, .connectFailed 5,
      .domainLenRead, .unknownAddrType,
      .replyTailRead].Pairwise (· ≠ ·)) := by
  refine ⟨?_, ?_, dialSocks5_error_closed, by decide⟩
  · intro target host portStr rest hsplit hbad
    have hb : buildConnectRequest target = .error .invalidPort := by
      simp only [buildConnectRequest, hsplit]
      cases hat : atoi portStr with
      | none => rfl
      | some v =>
        dsimp only
        rw [if_pos (hbad v hat)]
    have hgreet : readFullConn ([5, 0] :: rest) 2 = some ([5, 0], rest) :=
      readFullConn_two 5 0 [] _
    simp only [dialSocks5, hgreet]
    rw [if_neg (by simp)]
    simp only [hb]
  · intro target host portStr p rest hsplit hatoi hp1 hp2 hip hbadhost
    have hb : buildConnectRequest target = .error .invalidHost := by
      simp only [buildConnectRequest, hsplit, hatoi]
      rw [if_neg (by omega : ¬(p < 1 ∨ 65535 < p))]
      simp only [hip, Option.none_bind]
      rw [if_pos ?_]
      rcases hbadhost with h | h
      · exact Or.inl (by simp [h])
      · exact Or.inr h
    have hgreet : readFullConn ([5, 0] :: rest) 2 = some ([5, 0], rest) :=
      readFullConn_two 5 0 [] _
    simp only [dialSocks5, hgreet]
    rw [if_neg (by simp)]
    simp only [hb]

set_option maxRecDepth 8192 in
/-- Witness for C6: port `0` is rejected before any CONNECT bytes, and a
256-byte host name is rejected as over-length. -/
theorem C6_parse_failures_distinguished_witness :
    dialSocks5 (str2bytes "example.com:0") [[5, 0]] =
      ⟨[[5, 1, 0]], .error .invalidPort, true⟩ ∧
    dialSocks5 (List.replicate 256 97 ++ str2bytes ":80") [[5, 0]] =
      ⟨[[5, 1, 0]], .error .invalidHost, true⟩ := by
  constructor
  · exact C6_parse_failures_distinguished.1 (str2bytes "example.com:0")
      (str2bytes "example.com") (str2bytes "0") [] (by decide)
      (by intro v hv
          rw [show atoi (str2bytes "0") = some 0 from by decide] at hv
          cases hv
          omega)
  · exact C6_parse_failures_distinguished.2.1
      (List.replicate 256 97 ++ str2bytes ":80") (List.replicate 256 97)
      (str2bytes "80") 80 [] (by decide) (by decide) (by decide) (by decide)
      (by decide) (by decide)

lemma copyN_eq (body : List Nat) : ∀ b, copyN body b =
    (min b body.length, if body.length < b then some .eof else none) := by
  induction body with
  | nil => intro b; cases b <;> simp [copyN]
  | cons x rest ih =>
    intro b
    cases b with
    | zero => simp [copyN]
    | succ n =>
      simp [copyN, ih n, Nat.succ_min_succ, Nat.succ_lt_succ_iff]

/-- **C7.** The speed harness fails on any HTTP status ≥ 400 before
reading the body; with a positive byte budget it reads
`min budget (body length)` bytes — a clean end-of-stream short read is not
an error — and with budget 0 it reads the whole body; in particular a
budget of 100 against a 150-byte body yields exactly 100 bytes, and a
budget of 0 against a 50-byte body yields exactly 50 bytes. -/
theorem C7_speed_budget :
    (∀ (status : Nat) (body : List Nat) (mb : Int), 400 ≤ status →
      speedHTTP status body mb = .error (.badStatus status)) ∧
    (∀ (status : Nat) (body : List Nat) (mb : Int), status < 400 → 0 < mb →
      speedHTTP status body mb = .ok (min mb.toNat body.length)) ∧
    (∀ (status : Nat) (body : List Nat), status < 400 →
      speedHTTP status body 0 = .ok body.length) ∧
    speedHTTP 200 (List.replicate 150 7) 100 = .ok 100 ∧
    speedHTTP 200 (List.replicate 50 7) 0 = .ok 50 := by
  refine ⟨?_, ?_, ?_, by decide, by decide⟩
  · intro status body mb h
    simp [speedHTTP, h]
  · intro status body mb h hmb
    simp only [speedHTTP]
    rw [if_neg (by omega), if_pos hmb, copyN_eq]
    by_cases hc : body.length < mb.toNat <;> simp [hc]
  · intro status body h
    simp [speedHTTP, copyAll, h]

/-- Witness for C7: a 404 fails; a budget of 2 against a 3-byte body reads
2 bytes. -/
theorem C7_speed_budget_witness :
    speedHTTP 404 [1, 2, 3] 2 = .error (.badStatus 404) ∧
    speedHTTP 200 [1, 2, 3] 2 = .ok (min (2 : Int).toNat [1, 2, 3].length) :=
  ⟨C7_speed_budget.1 404 [1, 2, 3] 2 (by decide),
   C7_speed_budget.2.1 200 [1, 2, 3] 2 (by decide) (by decide)⟩

/-- **C8, counterexample.** The counters are `atomic.Uint64`s, so the adds
wrap at `2^64`: starting from an uplink counter of `2^64 - 500`, relaying
1000 bytes client→target leaves the counter at 500 — it did *not* increase
by exactly 1000, and it decreased, so the counters are not unconditionally
monotone as the claim states. -/
theorem C8_traffic_counter_wrap_counterexample :
    (relayConnMeter ⟨2 ^ 64 - 500, 0⟩ 1000 2000).upTotal = 500 ∧
    ¬((relayConnMeter ⟨2 ^ 64 - 500, 0⟩ 1000 2000).upTotal =
        (2 ^ 64 - 500) + 1000) ∧
    (relayConnMeter ⟨2 ^ 64 - 500, 0⟩ 1000 2000).upTotal <
      2 ^ 64 - 500 := by
  decide

/-- **C8, amended.** Bytes copied in each direction are added to the shared
counters by a single atomic 64-bit (wrapping) add, performed only when the
count is positive; whenever the addition does not reach `2^64` the counters
increase by exactly the copied amounts — in particular by exactly 1000
uplink and 2000 downlink for a 1000/2000-byte connection — and are
non-decreasing. -/
theorem C8_traffic_counters_amended :
    ∀ (m : TrafficMeter) (upN downN : Nat),
      m.upTotal < 2 ^ 64 → m.downTotal < 2 ^ 64 →
      ((relayConnMeter m upN downN).upTotal = (m.upTotal + upN) % 2 ^ 64 ∧
       (relayConnMeter m upN downN).downTotal =
         (m.downTotal + downN) % 2 ^ 64) ∧
      (m.upTotal + upN < 2 ^ 64 → m.downTotal + downN < 2 ^ 64 →
        (relayConnMeter m upN downN).upTotal = m.upTotal + upN ∧
        (relayConnMeter m upN downN).downTotal = m.downTotal + downN ∧
        m.upTotal ≤ (relayConnMeter m upN downN).upTotal ∧
        m.downTotal ≤ (relayConnMeter m upN downN).downTotal) := by
  intro m upN downN hu hd
  rcases m with ⟨u, d⟩
  dsimp only at hu hd ⊢
  have pu : (relayConnMeter ⟨u, d⟩ upN downN).upTotal =
      (if 0 < upN then (u + upN) % 2 ^ 64 else u) := by
    by_cases h1 : 0 < upN <;> by_cases h2 : 0 < downN <;>
      simp [relayConnMeter, u64add, h1, h2]
  have pd : (relayConnMeter ⟨u, d⟩ upN downN).downTotal =
      (if 0 < downN then (d + downN) % 2 ^ 64 else d) := by
    by_cases h1 : 0 < upN <;> by_cases h2 : 0 < downN <;>
      simp [relayConnMeter, u64add, h1, h2]
  constructor
  · constructor
    · rw [pu]
      by_cases h1 : 0 < upN
      · rw [if_pos h1]
      · rw [if_neg h1]; omega
    · rw [pd]
      by_cases h2 : 0 < downN
      · rw [if_pos h2]
      · rw [if_neg h2]; omega
  · intro hou hod
    have e1 : (relayConnMeter ⟨u, d⟩ upN downN).upTotal = u + upN := by
      rw [pu]
      by_cases h1 : 0 < upN
      · rw [if_pos h1]; omega
      · rw [if_neg h1]; omega
    have e2 : (relayConnMeter ⟨u, d⟩ upN downN).downTotal = d + downN := by
      rw [pd]
      by_cases h2 : 0 < downN
      · rw [if_pos h2]; omega
      · rw [if_neg h2]; omega
    exact ⟨e1, e2, by rw [e1]; omega, by rw [e2]; omega⟩

/-- Witness for C8 (amended): from a zeroed meter, a 1000/2000-byte
connection moves the counters to exactly 1000 and 2000. -/
theorem C8_traffic_counters_amended_witness :
    (relayConnMeter ⟨0, 0⟩ 1000 2000).upTotal = 0 + 1000 ∧
    (relayConnMeter ⟨0, 0⟩ 1000 2000).downTotal = 0 + 2000 := by
  have h := (C8_traffic_counters_amended ⟨0, 0⟩ 1000 2000 (by norm_num)
    (by norm_num)).2 (by norm_num) (by norm_num)
  exact ⟨h.1, h.2.1⟩

/-- **C9.** `ReadLogTail` never fails: a nil handle, an empty log path, or
an unreadable file all give the empty string; a readable file of at most
4000 bytes is returned whole, and a longer one is truncated to exactly its
last 4000 bytes. -/
theorem C9_read_log_tail_total :
    (∀ f, readLogTail none f = []) ∧
    (∀ st f, st.logPath = "" → readLogTail (some st) f = []) ∧
    (∀ st f, f st.logPath = none → readLogTail (some st) f = []) ∧
    (∀ st f b, st.logPath ≠ "" → f st.logPath = some b → b.length ≤ 4000 →
      readLogTail (some st) f = b) ∧
    (∀ st f b, st.logPath ≠ "" → f st.logPath = some b → 4000 < b.length →
      readLogTail (some st) f = b.drop (b.length - 4000) ∧
      (readLogTail (some st) f).length = 4000) := by
  refine ⟨fun f => rfl, ?_, ?_, ?_, ?_⟩
  · intro st f h
    simp [readLogTail, h]
  · intro st f h
    by_cases hp : st.logPath = "" <;> simp [readLogTail, hp, h]
  · intro st f b hp hf hb
    simp only [readLogTail, if_neg hp, hf]
    rw [if_neg (by omega)]
  · intro st f b hp hf hb
    have h : readLogTail (some st) f = b.drop (b.length - 4000) := by
      simp only [readLogTail, if_neg hp, hf]
      rw [if_pos (by omega)]
    exact ⟨h, by rw [h]; simp; omega⟩

/-- Witness for C9: a 3-byte log is returned whole; a 4001-byte log is
truncated to its last 4000 bytes. -/
theorem C9_read_log_tail_total_witness :
    readLogTail (some ⟨"/tmp/d/core.log"⟩) (fun _ => some [1, 2, 3]) =
      [1, 2, 3] ∧
    readLogTail (some ⟨"/tmp/d/core.log"⟩)
        (fun _ => some (List.replicate 4001 7)) =
      (List.replicate 4001 7).drop ((List.replicate 4001 7).length - 4000) := by
  constructor
  · exact C9_read_log_tail_total.2.2.2.1 ⟨"/tmp/d/core.log"⟩ _ [1, 2, 3]
      (by decide) rfl (by decide)
  · exact (C9_read_log_tail_total.2.2.2.2 ⟨"/tmp/d/core.log"⟩
      (fun _ => some (List.replicate 4001 7)) (List.replicate 4001 7)
      (by decide) rfl (by rw [List.length_replicate]; omega)).1

/-- **C10.** `DialSocks5` reads the CONNECT reply through a buffered
reader, so it can consume more bytes than the reply itself: when the proxy
delivers the 10-byte success reply and 3 further bytes in one segment, the
run succeeds but the surplus bytes `77 88 99` are buffered and then
discarded when the raw connection is returned — the caller sees an empty
stream, not the bytes sent after the reply. -/
theorem C10_buffered_surplus_discarded :
    dialSocks5 (str2bytes "1.2.3.4:80")
        [[5, 0], [5, 0, 0, 1, 9, 9, 9, 9, 0, 80, 77, 88, 99]] =
      ⟨[[5, 1, 0], [5, 1, 0, 1, 1, 2, 3, 4, 0, 80]], .ok [], false⟩ ∧
    streamBytes [[5, 0], [5, 0, 0, 1, 9, 9, 9, 9, 0, 80, 77, 88, 99]] =
      2 + (10 + 3) := by
  decide

/-- **C2 (code bug).** `Runner.Start` marshals the configuration to JSON
*before* reassigning `cfg["log"]` with the `access`/`error` log paths, so
the file it persists has a log section with only `loglevel` — the
access-stream and error-stream fields never reach the configuration file,
although the paths are computed and exposed on the returned handle. -/
theorem C2_persisted_config_log_bug :
    runnerStart ⟨"xray", 1080, "", ""⟩ "vless-outbound" "/tmp/proxy-node-1" =
      .ok ({ configPath := "/tmp/proxy-node-1/config.json",
             logPath := "/tmp/proxy-node-1/core.log",
             accessLogPath := "/tmp/proxy-node-1/access.log" },
           { log := { loglevel := "warning", access := none, error := none },
             inbound := { listen := "127.0.0.1", port := 1080,
                          protocol := "socks", settingsUdp := some false },
             outboundPrimary := "vless-outbound",
             outboundDirectTag := "direct",
             outboundDirectProtocol := "freedom" }) := by
  decide

end ProxyNode
